import Mathlib

/-!
Verification of the configuration header `src/config.h` of the
ESP32-Streamer-FNK0103 repository.

The repository as given contains a single C preprocessor header of
compile-time constants (WiFi credentials, a stream URL, and I2S pin
assignments).  We embed the header in layers, all derived from the same
raw text:

* `configH_text` — the raw lines of the file, exactly as in the source;
* `parseLine` / `configH` — each line classified as a preprocessor
  directive, comment, blank line, or other code, by a small parser over
  the raw character data;
* `ppStep` / `includeN` — a miniature C preprocessor
  (`#ifndef`/`#define`/`#endif` with a skip depth for inactive regions)
  used to reason about the include guard;
* `ConfigVariant` — the record of configuration constants.

The spec describes five near-duplicate variants of the header; only one
is present in the source tree, so the other four are modelled from the
spec's description (see `configV1` .. `configV4`).

All character-level helpers work on `List Char` rather than `String`
proper so that every definition evaluates inside the kernel.
-/

namespace Config

/-- The raw lines of `src/config.h`, exactly as in the source file
(the final element is the file's trailing blank line). -/
def configH_text : List String :=
  [ "#ifndef CONFIG_H"
  , "#define CONFIG_H"
  , ""
  , "// WiFi credentials"
  , "#define WIFI_SSID \"YOUR-SSID\""
  , "#define WIFI_PASSWORD \"YOUR-PASSWORD\""
  , ""
  , "// Audio streaming configuration"
  , "#define STREAM_URL \"http://192.168.50.4:8000/airband.mp3\""
  , ""
  , "// Audio output configuration"
  , "// For the onboard speaker amplifier the ESP32\x27s internal DAC (GPIO25) is used, so"
  , "// leave the BCLK/LRCLK pins at -1 and only set the data pin.  If you wire an"
  , "// external I2S amplifier provide all three pin numbers so the firmware switches"
  , "// to true I2S mode."
  , "#define I2S_SPEAKER_BCLK_PIN -1"
  , "#define I2S_SPEAKER_LRCLK_PIN -1"
  , "#define I2S_SPEAKER_DATA_PIN 25"
  , ""
  , "#endif // CONFIG_H"
  , "" ]

/-- Whitespace recognised when trimming a line. -/
def isSpaceChar (c : Char) : Bool :=
  c = ' ' ∨ c = '\t' ∨ c = '\r' ∨ c = '\n'

/-- Trim whitespace from both ends of a character list. -/
def trimChars (cs : List Char) : List Char :=
  ((cs.dropWhile isSpaceChar).reverse.dropWhile isSpaceChar).reverse

/-- The numeric value of a decimal digit character, if it is one. -/
def digitVal (c : Char) : Option Nat :=
  if '0' ≤ c ∧ c ≤ '9' then some (c.toNat - 48) else none

/-- Parse a nonempty all-digit character list as a natural number. -/
def parseNatChars (cs : List Char) : Option Nat :=
  if cs.isEmpty then none
  else
    cs.foldl
      (fun acc c =>
        match acc, digitVal c with
        | some a, some d => some (10 * a + d)
        | _, _ => none)
      (some 0)

/-- Parse an optionally `-`-signed decimal integer character list. -/
def parseIntChars (cs : List Char) : Option Int :=
  match cs with
  | '-' :: rest => (parseNatChars rest).map (fun n => -(n : Int))
  | _ => (parseNatChars cs).map (fun n => (n : Int))

/-- Does `sub` occur as a contiguous substring of `cs`? -/
def containsChars (sub : List Char) : List Char → Bool
  | [] => List.isPrefixOf sub []
  | c :: rest => List.isPrefixOf sub (c :: rest) || containsChars sub rest

/-- The value of a C object-like macro: a string literal, an integer
literal, or no replacement text at all (a bare flag such as the include
guard). -/
inductive MacroValue where
  | str (s : String)
  | int (i : Int)
  | flag
deriving DecidableEq, Repr

/-- A classified line of the header: an `#ifndef`, a `#define` of a
scalar literal, an `#endif`, a comment, a blank line, or anything else
(which would include any actual C code). -/
inductive CppLine where
  | ifndefD (name : String)
  | defineD (name : String) (v : MacroValue)
  | endifD
  | comment
  | blank
  | code (raw : String)
deriving DecidableEq, Repr

/-- Classify the replacement text of a `#define`: a quoted string
literal, an integer literal (possibly negative), empty (flag macro), or
unrecognised. -/
def parseValue (v : List Char) : Option MacroValue :=
  match v with
  | [] => some MacroValue.flag
  | _ =>
    if v.head? = some '"' ∧ v.getLast? = some '"' ∧ 2 ≤ v.length then
      some (MacroValue.str (String.mk ((v.drop 1).dropLast)))
    else
      match parseIntChars v with
      | some i => some (MacroValue.int i)
      | none => none

/-- Classify one raw line of the header. -/
def parseLine (s : String) : CppLine :=
  let t := trimChars s.data
  if t.isEmpty then CppLine.blank
  else if List.isPrefixOf ['/', '/'] t then CppLine.comment
  else if List.isPrefixOf "#ifndef ".data t then
    CppLine.ifndefD (String.mk (trimChars (t.drop 8)))
  else if List.isPrefixOf "#endif".data t then CppLine.endifD
  else if List.isPrefixOf "#define ".data t then
    let rest := trimChars (t.drop 8)
    let name := rest.takeWhile (fun c => c ≠ ' ')
    let value := trimChars (rest.drop name.length)
    match parseValue value with
    | some v => CppLine.defineD (String.mk name) v
    | none => CppLine.code s
  else CppLine.code s

/-- The header as a list of classified lines. -/
def configH : List CppLine := configH_text.map parseLine

/-- Is this classified line a `#define` of a string literal? -/
def isStrDefine : CppLine → Bool
  | CppLine.defineD _ (MacroValue.str _) => true
  | _ => false

/-- Is this classified line a `#define` of an integer literal? -/
def isIntDefine : CppLine → Bool
  | CppLine.defineD _ (MacroValue.int _) => true
  | _ => false

/-- Is this classified line something other than a directive, comment or
blank line — i.e. would it be actual C code (a declaration, statement,
or function)? -/
def isCodeLine : CppLine → Bool
  | CppLine.code _ => true
  | _ => false

/-- The macro name defined by a `#define` line (`""` otherwise). -/
def defineName : CppLine → String
  | CppLine.defineD n _ => n
  | _ => ""

/-- Does a comment line of the header mention the token `GPIO25`? -/
def commentMentionsGPIO25 : Bool :=
  configH_text.any
    (fun l => (parseLine l == CppLine.comment) && containsChars "GPIO25".data l.data)

/-- State of the miniature C preprocessor: the macro environment
(newest binding first) and the definitions emitted so far, in order. -/
structure PPState where
  env : List (String × MacroValue)
  emitted : List (String × MacroValue)
deriving DecidableEq, Repr

/-- Is macro `n` defined in the environment? -/
def isDefined (env : List (String × MacroValue)) (n : String) : Bool :=
  env.any (fun p => p.1 = n)

/-- One preprocessor step on a classified line.  The `Nat` is the skip
depth: `0` means the current region is active; `d + 1` means we are
inside `d + 1` nested conditionals whose outermost one was not taken,
so the line is discarded (except for tracking nesting). -/
def ppStep : Nat × PPState → CppLine → Nat × PPState
  | (0, st), CppLine.ifndefD n => if isDefined st.env n then (1, st) else (0, st)
  | (0, st), CppLine.defineD n v =>
      (0, ⟨(n, v) :: st.env, st.emitted ++ [(n, v)]⟩)
  | (0, st), _ => (0, st)
  | (d + 1, st), CppLine.ifndefD _ => (d + 2, st)
  | (d + 1, st), CppLine.endifD => (d, st)
  | (d + 1, st), _ => (d + 1, st)

/-- Run the preprocessor over a list of classified lines. -/
def ppRun (start : Nat × PPState) (ls : List CppLine) : Nat × PPState :=
  ls.foldl ppStep start

/-- Preprocessor state after including `config.h` `n` times in a fresh
translation unit. -/
def includeN : Nat → Nat × PPState
  | 0 => (0, ⟨[], []⟩)
  | n + 1 => ppRun (includeN n) configH

/-- Look up the replacement value of macro `n` in an environment. -/
def lookupMacro (env : List (String × MacroValue)) (n : String) : Option MacroValue :=
  (env.find? (fun p => p.1 = n)).map Prod.snd

/-! ## The configuration constants of `src/config.h` -/

/-- `#define WIFI_SSID "YOUR-SSID"` (src/config.h line 5). -/
def WIFI_SSID : String := "YOUR-SSID"

/-- `#define WIFI_PASSWORD "YOUR-PASSWORD"` (src/config.h line 6). -/
def WIFI_PASSWORD : String := "YOUR-PASSWORD"

/-- `#define STREAM_URL "http://192.168.50.4:8000/airband.mp3"`
(src/config.h line 9). -/
def STREAM_URL : String := "http://192.168.50.4:8000/airband.mp3"

/-- `#define I2S_SPEAKER_BCLK_PIN -1` (src/config.h line 16). -/
def I2S_SPEAKER_BCLK_PIN : Int := -1

/-- `#define I2S_SPEAKER_LRCLK_PIN -1` (src/config.h line 17). -/
def I2S_SPEAKER_LRCLK_PIN : Int := -1

/-- `#define I2S_SPEAKER_DATA_PIN 25` (src/config.h line 18). -/
def I2S_SPEAKER_DATA_PIN : Int := 25

/-- A credential placeholder of the form the spec describes:
a string starting with `YOUR-`. -/
def isPlaceholderCredential (s : String) : Bool :=
  List.isPrefixOf "YOUR-".data s.data

/-! ## The five configuration variants -/

/-- One variant of the configuration header: the constants it defines.
`ampEnablePin` is `none` when the variant does not define
`AUDIO_AMP_ENABLE_PIN`. -/
structure ConfigVariant where
  wifiSsid : String
  wifiPassword : String
  streamUrl : String
  bclkPin : Int
  lrclkPin : Int
  dataPin : Int
  ampEnablePin : Option Int
deriving DecidableEq, Repr

/-- The variant actually present under `src/` (`src/config.h`); it does
not define `AUDIO_AMP_ENABLE_PIN`. -/
def configV0 : ConfigVariant :=
  { wifiSsid := WIFI_SSID
    wifiPassword := WIFI_PASSWORD
    streamUrl := STREAM_URL
    bclkPin := I2S_SPEAKER_BCLK_PIN
    lrclkPin := I2S_SPEAKER_LRCLK_PIN
    dataPin := I2S_SPEAKER_DATA_PIN
    ampEnablePin := none }

/-- Modelled from the spec: the second of the five near-duplicate
variants, absent from `src/`.  Per the spec it differs only in the
stream URL (a local IP with a differing path) and defines
`AUDIO_AMP_ENABLE_PIN` as 4; pins stay `-1`, `-1`, `25`. -/
def configV1 : ConfigVariant :=
  { wifiSsid := WIFI_SSID
    wifiPassword := WIFI_PASSWORD
    streamUrl := "http://192.168.1.20:8000/scanner.mp3"
    bclkPin := -1
    lrclkPin := -1
    dataPin := 25
    ampEnablePin := some 4 }

/-- Modelled from the spec: the third variant, absent from `src/`.
Its URL uses a domain name, and it defines `AUDIO_AMP_ENABLE_PIN` as 4
(the second of the two variants that have the pin); pins stay `-1`,
`-1`, `25`. -/
def configV2 : ConfigVariant :=
  { wifiSsid := WIFI_SSID
    wifiPassword := WIFI_PASSWORD
    streamUrl := "http://radio.example.com/airband.mp3"
    bclkPin := -1
    lrclkPin := -1
    dataPin := 25
    ampEnablePin := some 4 }

/-- Modelled from the spec: the fourth variant, absent from `src/`.
Its URL uses another local IP and path; no `AUDIO_AMP_ENABLE_PIN`;
pins stay `-1`, `-1`, `25`. -/
def configV3 : ConfigVariant :=
  { wifiSsid := WIFI_SSID
    wifiPassword := WIFI_PASSWORD
    streamUrl := "http://192.168.0.5:8000/stream.mp3"
    bclkPin := -1
    lrclkPin := -1
    dataPin := 25
    ampEnablePin := none }

/-- Modelled from the spec: the fifth variant, absent from `src/`.
Its URL uses a domain name with a port and a differing path; no
`AUDIO_AMP_ENABLE_PIN`; pins stay `-1`, `-1`, `25`. -/
def configV4 : ConfigVariant :=
  { wifiSsid := WIFI_SSID
    wifiPassword := WIFI_PASSWORD
    streamUrl := "http://icecast.example.net:8000/feed.mp3"
    bclkPin := -1
    lrclkPin := -1
    dataPin := 25
    ampEnablePin := none }

/-- The five configuration variants the spec describes; only the first
is present under `src/`, the rest are modelled from the spec. -/
def variants : List ConfigVariant :=
  [configV0, configV1, configV2, configV3, configV4]

/-- Modelled from the spec (the firmware itself is absent from `src/`):
per the comment in `config.h`, the firmware switches to true I2S mode
only when all three pin numbers are provided (i.e. none is left at the
`-1` sentinel). -/
def trueI2SMode (c : ConfigVariant) : Bool :=
  c.bclkPin ≠ -1 ∧ c.lrclkPin ≠ -1 ∧ c.dataPin ≠ -1

/-- The two audio output paths the header's comment describes. -/
inductive OutputPath where
  | internalDAC
  | externalI2S
deriving DecidableEq, Repr

/-- Modelled from the spec: the output path the firmware selects —
true I2S when all three pins are provided, the internal DAC otherwise. -/
def outputPath (c : ConfigVariant) : OutputPath :=
  if trueI2SMode c then OutputPath.externalI2S else OutputPath.internalDAC

/-! ## HTTP URL and IPv4 parsing -/

/-- The parts of a parsed HTTP URL. -/
structure UrlParts where
  scheme : String
  host : String
  port : Option Nat
  path : String
deriving DecidableEq, Repr

/-- Modelled from the spec: a well-formed HTTP URL consists of the
scheme `http`, a nonempty host, an optional `:port`, and a nonempty
path.  Returns `none` when the string is not of that shape. -/
def parseHttpUrl (s : String) : Option UrlParts :=
  let cs := s.data
  if List.isPrefixOf "http://".data cs then
    let rest := cs.drop 7
    let hostport := rest.takeWhile (fun c => c ≠ '/')
    let path := rest.drop hostport.length
    let host := hostport.takeWhile (fun c => c ≠ ':')
    let portPart := hostport.drop host.length
    if host.isEmpty ∨ path.isEmpty then none
    else
      match portPart with
      | [] => some ⟨"http", String.mk host, none, String.mk path⟩
      | ':' :: ds =>
        match parseNatChars ds with
        | some n => some ⟨"http", String.mk host, some n, String.mk path⟩
        | none => none
      | _ => none
  else none

/-- Split a character list on `.` separators. -/
def splitOnDot : List Char → List (List Char)
  | [] => [[]]
  | c :: rest =>
    match splitOnDot rest with
    | [] => if c = '.' then [[], []] else [[c]]
    | g :: gs => if c = '.' then [] :: g :: gs else (c :: g) :: gs

/-- Parse a dotted-quad IPv4 address, each octet in `0..255`. -/
def parseIPv4 (s : String) : Option (Nat × Nat × Nat × Nat) :=
  match (splitOnDot s.data).map parseNatChars with
  | [some a, some b, some c, some d] =>
    if a ≤ 255 ∧ b ≤ 255 ∧ c ≤ 255 ∧ d ≤ 255 then some (a, b, c, d) else none
  | _ => none

/-- Is the host a private IPv4 address per RFC 1918
(`10/8`, `172.16/12`, or `192.168/16`)? -/
def isPrivateRFC1918 (s : String) : Bool :=
  match parseIPv4 s with
  | some (a, b, _, _) => a = 10 ∨ (a = 172 ∧ 16 ≤ b ∧ b ≤ 31) ∨ (a = 192 ∧ b = 168)
  | none => false

/-- Does the string end in `.mp3`? -/
def endsWithMp3 (s : String) : Bool :=
  List.isSuffixOf ".mp3".data s.data

/-- Is the pin a DAC-capable ESP32 GPIO?  The ESP32's two internal DAC
channels sit on GPIO25 and GPIO26. -/
def isDacCapableGpio (p : Int) : Bool :=
  p = 25 ∨ p = 26

/-- Is the pin either the `-1` sentinel or a valid ESP32 GPIO number
(`0..39`)? -/
def isSentinelOrValidGpio (p : Int) : Bool :=
  p = -1 ∨ (0 ≤ p ∧ p ≤ 39)

/-! ## Helper lemmas -/

/-- Re-including the header after a first include changes nothing: the
include guard `CONFIG_H` is defined, so the whole body is skipped. -/
theorem includeOnce_stable : ppRun (includeN 1) configH = includeN 1 := by decide

/-- Including the header any positive number of times yields the state
of including it once. -/
theorem includeN_succ (n : Nat) : includeN (n + 1) = includeN 1 := by
  induction n with
  | zero => rfl
  | succ m ih =>
    show ppRun (includeN (m + 1)) configH = includeN 1
    rw [ih]
    exact includeOnce_stable

/-! ## The claims -/

/-- C1: The source consists solely of flat compile-time scalar
configuration constants — no line of `config.h` is C code, its string
defines are exactly the two credential strings and the URL string, and
its integer defines are the (at most four) pin numbers. -/
theorem config_header_defines_only_scalar_constants :
    (configH.all fun l => !(isCodeLine l)) = true ∧
    (configH.filter isStrDefine).map defineName =
      ["WIFI_SSID", "WIFI_PASSWORD", "STREAM_URL"] ∧
    (configH.filter isIntDefine).map defineName =
      ["I2S_SPEAKER_BCLK_PIN", "I2S_SPEAKER_LRCLK_PIN", "I2S_SPEAKER_DATA_PIN"] ∧
    (configH.filter isIntDefine).length ≤ 4 := by
  decide

/-- C2: In every one of the five configuration variants both I2S clock
pins are `-1`, so true I2S mode is never enabled and the internal-DAC
output path is always selected. -/
theorem i2s_clock_pins_disabled_in_all_variants :
    ∀ c ∈ variants,
      c.bclkPin = -1 ∧ c.lrclkPin = -1 ∧
      trueI2SMode c = false ∧ outputPath c = OutputPath.internalDAC := by
  decide

/-- Witness for C2 at the variant from `src/config.h`. -/
theorem i2s_clock_pins_disabled_witness :
    configV0 ∈ variants ∧
      (configV0.bclkPin = -1 ∧ configV0.lrclkPin = -1 ∧
       trueI2SMode configV0 = false ∧ outputPath configV0 = OutputPath.internalDAC) :=
  ⟨by decide, i2s_clock_pins_disabled_in_all_variants configV0 (by decide)⟩

/-- C3: In every one of the five configuration variants
`I2S_SPEAKER_DATA_PIN` equals 25. -/
theorem data_pin_is_25_in_all_variants :
    ∀ c ∈ variants, c.dataPin = 25 := by
  decide

/-- Witness for C3 at the variant from `src/config.h`. -/
theorem data_pin_is_25_witness :
    configV0 ∈ variants ∧ configV0.dataPin = 25 :=
  ⟨by decide, data_pin_is_25_in_all_variants configV0 (by decide)⟩

/-- C4: In every configuration variant `STREAM_URL` is a well-formed
HTTP URL: it parses into the scheme `http`, a nonempty host, and a
nonempty path. -/
theorem stream_url_wellformed_in_all_variants :
    ∀ c ∈ variants, ∃ u : UrlParts,
      parseHttpUrl c.streamUrl = some u ∧
      u.scheme = "http" ∧ u.host ≠ "" ∧ u.path ≠ "" := by
  intro c hc
  fin_cases hc
  · exact ⟨⟨"http", "192.168.50.4", some 8000, "/airband.mp3"⟩, by decide⟩
  · exact ⟨⟨"http", "192.168.1.20", some 8000, "/scanner.mp3"⟩, by decide⟩
  · exact ⟨⟨"http", "radio.example.com", none, "/airband.mp3"⟩, by decide⟩
  · exact ⟨⟨"http", "192.168.0.5", some 8000, "/stream.mp3"⟩, by decide⟩
  · exact ⟨⟨"http", "icecast.example.net", some 8000, "/feed.mp3"⟩, by decide⟩

/-- Witness for C4 at the variant from `src/config.h`. -/
theorem stream_url_wellformed_witness :
    configV0 ∈ variants ∧
      ∃ u : UrlParts, parseHttpUrl configV0.streamUrl = some u ∧
        u.scheme = "http" ∧ u.host ≠ "" ∧ u.path ≠ "" :=
  ⟨by decide, stream_url_wellformed_in_all_variants configV0 (by decide)⟩

/-- C5: `AUDIO_AMP_ENABLE_PIN` is present in exactly 2 of the 5
configuration variants, and wherever present it equals 4. -/
theorem amp_enable_pin_two_variants_pin4 :
    (variants.filter (fun c => c.ampEnablePin.isSome)).length = 2 ∧
    ∀ c ∈ variants, ∀ p : Int, c.ampEnablePin = some p → p = 4 := by
  refine ⟨by decide, ?_⟩
  intro c hc p hp
  fin_cases hc <;> simp_all [configV0, configV1, configV2, configV3, configV4]

/-- Witness for C5 at a variant that defines the pin. -/
theorem amp_enable_pin_witness :
    configV1 ∈ variants ∧ configV1.ampEnablePin = some 4 ∧ (4 : Int) = 4 :=
  ⟨by decide, by decide,
    amp_enable_pin_two_variants_pin4.2 configV1 (by decide) 4 (by decide)⟩

/-- C6: The station credentials `WIFI_SSID` and `WIFI_PASSWORD` are
placeholder strings of the form `YOUR-SSID` / `YOUR-PASSWORD`, and these
are exactly the values the preprocessor records for them. -/
theorem wifi_credentials_are_placeholders :
    WIFI_SSID = "YOUR-SSID" ∧ WIFI_PASSWORD = "YOUR-PASSWORD" ∧
    isPlaceholderCredential WIFI_SSID = true ∧
    isPlaceholderCredential WIFI_PASSWORD = true ∧
    lookupMacro (includeN 1).2.env "WIFI_SSID" = some (MacroValue.str WIFI_SSID) ∧
    lookupMacro (includeN 1).2.env "WIFI_PASSWORD" = some (MacroValue.str WIFI_PASSWORD) := by
  decide

/-- C7: Every configuration constant is fixed at build time and
read-only at runtime: the header contains no code that could mutate
anything, and after any positive number of inclusions the macro
environment maps each constant to the same fixed literal. -/
theorem config_constants_fixed_and_readonly (n : Nat) (h : 1 ≤ n) :
    (configH.all fun l => !(isCodeLine l)) = true ∧
    lookupMacro (includeN n).2.env "WIFI_SSID" = some (MacroValue.str "YOUR-SSID") ∧
    lookupMacro (includeN n).2.env "WIFI_PASSWORD" = some (MacroValue.str "YOUR-PASSWORD") ∧
    lookupMacro (includeN n).2.env "STREAM_URL" =
      some (MacroValue.str "http://192.168.50.4:8000/airband.mp3") ∧
    lookupMacro (includeN n).2.env "I2S_SPEAKER_BCLK_PIN" = some (MacroValue.int (-1)) ∧
    lookupMacro (includeN n).2.env "I2S_SPEAKER_LRCLK_PIN" = some (MacroValue.int (-1)) ∧
    lookupMacro (includeN n).2.env "I2S_SPEAKER_DATA_PIN" = some (MacroValue.int 25) := by
  obtain ⟨m, rfl⟩ : ∃ m, n = m + 1 := ⟨n - 1, by omega⟩
  rw [includeN_succ m]
  decide

/-- Witness for C7 at two inclusions. -/
theorem config_constants_fixed_witness :
    1 ≤ 2 ∧
      lookupMacro (includeN 2).2.env "STREAM_URL" =
        some (MacroValue.str "http://192.168.50.4:8000/airband.mp3") :=
  ⟨by decide, (config_constants_fixed_and_readonly 2 (by decide)).2.2.2.1⟩

/-- C8: `STREAM_URL` is exactly the plain-HTTP endpoint
`http://192.168.50.4:8000/airband.mp3`: not HTTPS, host a private
RFC 1918 IPv4 address, port 8000, path ending in `.mp3`. -/
theorem stream_url_is_local_http_mp3 :
    STREAM_URL = "http://192.168.50.4:8000/airband.mp3" ∧
    parseHttpUrl STREAM_URL =
      some { scheme := "http", host := "192.168.50.4",
             port := some 8000, path := "/airband.mp3" } ∧
    List.isPrefixOf "https://".data STREAM_URL.data = false ∧
    isPrivateRFC1918 "192.168.50.4" = true ∧
    endsWithMp3 "/airband.mp3" = true := by
  decide

/-- C9: Every I2S pin constant is either the `-1` sentinel or a valid
ESP32 GPIO number in `0..39`; the data pin is 25, a DAC-capable GPIO,
and the header's own comment names GPIO25. -/
theorem i2s_pins_sentinel_or_valid_gpio :
    ([I2S_SPEAKER_BCLK_PIN, I2S_SPEAKER_LRCLK_PIN, I2S_SPEAKER_DATA_PIN].all
        isSentinelOrValidGpio) = true ∧
    I2S_SPEAKER_DATA_PIN = 25 ∧
    isDacCapableGpio I2S_SPEAKER_DATA_PIN = true ∧
    commentMentionsGPIO25 = true := by
  decide

/-- C10: The include guard `CONFIG_H` makes inclusion idempotent:
including `config.h` any positive number of times yields exactly the
state of including it once, and no macro is ever redefined. -/
theorem include_guard_idempotent (n : Nat) (h : 1 ≤ n) :
    includeN n = includeN 1 ∧
    ((includeN n).2.emitted.map Prod.fst).Nodup := by
  obtain ⟨m, rfl⟩ : ∃ m, n = m + 1 := ⟨n - 1, by omega⟩
  refine ⟨includeN_succ m, ?_⟩
  rw [includeN_succ m]
  decide

/-- Witness for C10 at three inclusions. -/
theorem include_guard_idempotent_witness :
    1 ≤ 3 ∧ includeN 3 = includeN 1 :=
  ⟨by decide, (include_guard_idempotent 3 (by decide)).1⟩

end Config
